import Mathlib

/- Verification of the dathost asynchronous server handle
   (src/dathost/server/awaiting/__init__.py), a thin client binding that
   translates method calls on a server handle into HTTP requests issued
   through a shared dispatcher ("context").  The handle methods are embedded
   as pure functions returning the operation result together with the ordered
   trace of dispatcher requests issued during the call. -/

/-- Decoded JSON values, as produced by the dispatcher after decoding a
response body.  Objects keep their key/value pairs in order. -/
inductive Json where
  | null : Json
  | bool : Bool → Json
  | int : Int → Json
  | str : String → Json
  | arr : List Json → Json
  | obj : List (String × Json) → Json

/-- First-match lookup in an ordered key/value list (Python dict indexing,
whose keys are unique, so first match agrees with the dict). -/
def lookupKV : List (String × Json) → String → Option Json
  | [], _ => none
  | (k, v) :: rest, key => if k = key then some v else lookupKV rest key

/-- Python `data[key]` on a decoded JSON value: defined on objects holding the
key, otherwise no value (the Python call raises). -/
def Json.getKey : Json → String → Option Json
  | Json.obj kvs, key => lookupKV kvs key
  | _, _ => none

/-- Python `dict` merge `{**d, key: v}`: update the binding in place when the
key is present, otherwise append it (keys of a Python dict are unique, so
updating the first occurrence is the dict semantics). -/
def dictSet : List (String × Json) → String → Json → List (String × Json)
  | [], key, v => [(key, v)]
  | (k1, v1) :: rest, key, v =>
    if k1 = key then (key, v) :: rest else (k1, v1) :: dictSet rest key v

/-- Rendering of a JSON scalar into a URL, as Python `str.format` does with
the raw value interpolated into a URL template.  Server ids are scalars;
the rendering of composite values never occurs in a URL. -/
def Json.render : Json → String
  | Json.null => "None"
  | Json.bool b => if b then "True" else "False"
  | Json.int n => toString n
  | Json.str s => s
  | Json.arr _ => "<list>"
  | Json.obj _ => "<dict>"

/-- HTTP verbs exposed by the dispatcher. -/
inductive Verb where
  | get : Verb
  | post : Verb
  | put : Verb
  | delete : Verb

/-- One dispatcher invocation: the verb together with everything the calling
operation passed (URL, query parameters, body payload, per-call timeout when
the operation supplies one, and the read_json flag). -/
structure Request where
  verb : Verb
  url : String
  params : List (String × Json)
  body : List (String × Json)
  timeout : Option Nat
  read_json : Bool

/-- Modelled from the spec: dispatcher failures (section 7) — a remote error
carrying the non-success status, or a timeout error.  The dispatcher module is
not under src/. -/
inductive DispatchError where
  | http : Nat → DispatchError
  | timeout : DispatchError

/-- Errors surfaced by a handle operation: the local validation error raised
by console_retrive, a missing-key failure of Python indexing, iteration over a
non-array listing response, or a dispatcher error propagated unchanged. -/
inductive DathostError where
  | invalidConsoleLine : DathostError
  | keyError : String → DathostError
  | typeError : DathostError
  | dispatch : DispatchError → DathostError

/-- Modelled from the spec: the request dispatcher ("context", section 4.3) is
not under src/; it is the sole network boundary, each verb call being one
request/response exchange with no retry.  It is abstracted as a response
oracle mapping each issued request to a decoded JSON body or a typed error. -/
structure Context where
  respond : Request → Except DispatchError Json

/-- Modelled from the spec: the routes table (`dathost.routes.SERVER`) is not
under src/; a route is a fixed URL template parameterized by the server id. -/
structure Route where
  template : String

/-- Python `template.format(server_id)`: the id rendered into the template. -/
def Route.fmt (r : Route) (id : Json) : String :=
  r.template ++ Json.render id

def SERVER.delete : Route := ⟨"/api/0.1/game-servers/delete/"⟩
def SERVER.get : Route := ⟨"/api/0.1/game-servers/get/"⟩
def SERVER.update : Route := ⟨"/api/0.1/game-servers/update/"⟩
def SERVER.console : Route := ⟨"/api/0.1/game-servers/console/"⟩
def SERVER.sync : Route := ⟨"/api/0.1/game-servers/sync-files/"⟩
def SERVER.duplicate : Route := ⟨"/api/0.1/game-servers/duplicate/"⟩
def SERVER.ftp : Route := ⟨"/api/0.1/game-servers/ftp-password/"⟩
def SERVER.stop : Route := ⟨"/api/0.1/game-servers/stop/"⟩
def SERVER.start : Route := ⟨"/api/0.1/game-servers/start/"⟩
def SERVER.reset : Route := ⟨"/api/0.1/game-servers/reset/"⟩
def SERVER.files : Route := ⟨"/api/0.1/game-servers/files/"⟩
def SERVER.backups : Route := ⟨"/api/0.1/game-servers/backups/"⟩
def SERVER.metrics : Route := ⟨"/api/0.1/game-servers/metrics/"⟩

/-- Modelled from the spec: `ServerBase` (the handle base class) is not under
src/; a handle stores the shared dispatcher reference plus its identifying
key, performing no I/O at construction (section 4.1). -/
structure ServerAwaiting where
  context : Context
  server_id : Json

/-- Modelled from the spec: model wrappers are immutable views over the raw
decoded response (section 3); the model classes are not under src/. -/
structure ServerModel where
  data : Json

/-- Modelled from the spec: immutable view over one file listing element. -/
structure FileModel where
  data : Json

/-- Modelled from the spec: immutable view over one backup listing element. -/
structure BackupModel where
  data : Json

/-- Modelled from the spec: immutable view over the metrics response. -/
structure MetricsModel where
  data : Json

/-- Modelled from the spec: `AwaitingFile` is not under src/; src constructs
it from the dispatcher, the server id and the file pathway. -/
structure AwaitingFile where
  context : Context
  server_id : Json
  pathway : Json

/-- Modelled from the spec: `AwaitingBackup` is not under src/; src constructs
it from the dispatcher, the server id and the backup name. -/
structure AwaitingBackup where
  context : Context
  server_id : Json
  backup_name : Json

/-- Modelled from the spec: `ServerSettings` (section 9) is a record of
independently optional options with a method producing the wire-format
mapping of only the set fields; the settings module is not under src/.  It is
abstracted by that wire-format mapping (`playload`, named as in src). -/
structure ServerSettings where
  playload : List (String × Json)

/-- Outcome of one handle operation: its result (or error), the ordered trace
of dispatcher requests it issued, and the handle state after the call (the
source methods never assign to the handle's fields). -/
structure OpOut (α : Type) where
  res : Except DathostError α
  trace : List Request
  post : ServerAwaiting

/- Per-operation requests.  Each request-builder def records exactly the
arguments the source method passes to the dispatcher verb. -/

/-- `context._delete(SERVER.delete.format(server_id), timeout=timeout)`. -/
def deleteRequest (h : ServerAwaiting) (timeout : Nat) : Request :=
  ⟨Verb.delete, SERVER.delete.fmt h.server_id, [], [], some timeout, false⟩

/-- `context._get(SERVER.get.format(server_id))`. -/
def getRequest (h : ServerAwaiting) : Request :=
  ⟨Verb.get, SERVER.get.fmt h.server_id, [], [], none, true⟩

/-- `context._put(SERVER.update.format(server_id), data={**settings.playload,
"server_id": server_id})`. -/
def updateRequest (h : ServerAwaiting) (settings : ServerSettings) : Request :=
  ⟨Verb.put, SERVER.update.fmt h.server_id, [],
    dictSet settings.playload "server_id" h.server_id, none, false⟩

/-- `context._post(url=SERVER.console.format(server_id), data={"line": line})`. -/
def consoleSendRequest (h : ServerAwaiting) (line : String) : Request :=
  ⟨Verb.post, SERVER.console.fmt h.server_id, [],
    [("line", Json.str line)], none, false⟩

/-- `context._get(url=SERVER.console.format(server_id),
params={"max_lines": lines})`. -/
def consoleGetRequest (h : ServerAwaiting) (lines : Int) : Request :=
  ⟨Verb.get, SERVER.console.fmt h.server_id,
    [("max_lines", Json.int lines)], [], none, true⟩

/-- `context._post(url=SERVER.sync.format(server_id))`. -/
def syncRequest (h : ServerAwaiting) : Request :=
  ⟨Verb.post, SERVER.sync.fmt h.server_id, [], [], none, false⟩

/-- `context._post(url=SERVER.duplicate.format(server_id), read_json=True,
timeout=timeout)`. -/
def duplicateRequest (h : ServerAwaiting) (timeout : Nat) : Request :=
  ⟨Verb.post, SERVER.duplicate.fmt h.server_id, [], [], some timeout, true⟩

/-- `context._post(url=SERVER.ftp.format(server_id))`. -/
def ftpRequest (h : ServerAwaiting) : Request :=
  ⟨Verb.post, SERVER.ftp.fmt h.server_id, [], [], none, false⟩

/-- `context._post(url=SERVER.stop.format(server_id), timeout=timeout)`. -/
def stopRequest (h : ServerAwaiting) (timeout : Nat) : Request :=
  ⟨Verb.post, SERVER.stop.fmt h.server_id, [], [], some timeout, false⟩

/-- `context._post(url=SERVER.start.format(server_id), timeout=timeout)`. -/
def startRequest (h : ServerAwaiting) (timeout : Nat) : Request :=
  ⟨Verb.post, SERVER.start.fmt h.server_id, [], [], some timeout, false⟩

/-- `context._post(url=SERVER.reset.format(server_id), timeout=timeout)`. -/
def resetRequest (h : ServerAwaiting) (timeout : Nat) : Request :=
  ⟨Verb.post, SERVER.reset.fmt h.server_id, [], [], some timeout, false⟩

/-- `context._get(SERVER.files.format(server_id), params={...},
timeout=timeout)`: the three options forwarded verbatim as query
parameters. -/
def filesRequest (h : ServerAwaiting) (hide_default : Bool)
    (path : Option String) (file_sizes : Bool) (timeout : Nat) : Request :=
  ⟨Verb.get, SERVER.files.fmt h.server_id,
    [("hide_default_files", Json.bool hide_default),
     ("path", match path with | some s => Json.str s | none => Json.null),
     ("with_filesizes", Json.bool file_sizes)],
    [], some timeout, true⟩

/-- `context._get(SERVER.backups.format(server_id), timeout=timeout)`. -/
def backupsRequest (h : ServerAwaiting) (timeout : Nat) : Request :=
  ⟨Verb.get, SERVER.backups.fmt h.server_id, [], [], some timeout, true⟩

/-- `context._get(SERVER.metrics.format(server_id))`. -/
def metricsRequest (h : ServerAwaiting) : Request :=
  ⟨Verb.get, SERVER.metrics.fmt h.server_id, [], [], none, true⟩

/- The handle operations (src/dathost/server/awaiting/__init__.py). -/

/-- `ServerAwaiting.delete`: one DELETE to the server's canonical URL. -/
def ServerAwaiting.delete (h : ServerAwaiting) (timeout : Nat) : OpOut Unit :=
  match h.context.respond (deleteRequest h timeout) with
  | Except.error e => ⟨Except.error (DathostError.dispatch e), [deleteRequest h timeout], h⟩
  | Except.ok _ => ⟨Except.ok (), [deleteRequest h timeout], h⟩

/-- `ServerAwaiting.get`: one GET, response wrapped in a ServerModel. -/
def ServerAwaiting.get (h : ServerAwaiting) : OpOut ServerModel :=
  match h.context.respond (getRequest h) with
  | Except.error e => ⟨Except.error (DathostError.dispatch e), [getRequest h], h⟩
  | Except.ok data => ⟨Except.ok ⟨data⟩, [getRequest h], h⟩

/-- `ServerAwaiting.update`: one PUT whose body is the settings payload merged
with the server_id entry. -/
def ServerAwaiting.update (h : ServerAwaiting) (settings : ServerSettings) :
    OpOut Unit :=
  match h.context.respond (updateRequest h settings) with
  | Except.error e => ⟨Except.error (DathostError.dispatch e), [updateRequest h settings], h⟩
  | Except.ok _ => ⟨Except.ok (), [updateRequest h settings], h⟩

/-- `ServerAwaiting.console_send`: one POST carrying the console line. -/
def ServerAwaiting.console_send (h : ServerAwaiting) (line : String) :
    OpOut Unit :=
  match h.context.respond (consoleSendRequest h line) with
  | Except.error e => ⟨Except.error (DathostError.dispatch e), [consoleSendRequest h line], h⟩
  | Except.ok _ => ⟨Except.ok (), [consoleSendRequest h line], h⟩

/-- `ServerAwaiting.console_retrive`: validates `1 <= lines <= 100000` before
any dispatch, then one GET with the bound as the max_lines query parameter,
returning the response object's "lines" value. -/
def ServerAwaiting.console_retrive (h : ServerAwaiting) (lines : Int) :
    OpOut Json :=
  if lines < 1 ∨ lines > 100000 then
    ⟨Except.error DathostError.invalidConsoleLine, [], h⟩
  else
    match h.context.respond (consoleGetRequest h lines) with
    | Except.error e => ⟨Except.error (DathostError.dispatch e), [consoleGetRequest h lines], h⟩
    | Except.ok data =>
      match data.getKey "lines" with
      | some v => ⟨Except.ok v, [consoleGetRequest h lines], h⟩
      | none => ⟨Except.error (DathostError.keyError "lines"), [consoleGetRequest h lines], h⟩

/-- `ServerAwaiting.sync`: one POST to the sync URL. -/
def ServerAwaiting.sync (h : ServerAwaiting) : OpOut Unit :=
  match h.context.respond (syncRequest h) with
  | Except.error e => ⟨Except.error (DathostError.dispatch e), [syncRequest h], h⟩
  | Except.ok _ => ⟨Except.ok (), [syncRequest h], h⟩

/-- The tail of `ServerAwaiting.duplicate` after the optional sync call,
`t` being the trace already issued: one POST to the duplicate URL, the
response wrapped in a model paired with the fresh handle
`ServerAwaiting(self.context, data["id"])`. -/
def duplicateTail (h : ServerAwaiting) (timeout : Nat) (t : List Request) :
    OpOut (ServerModel × ServerAwaiting) :=
  match h.context.respond (duplicateRequest h timeout) with
  | Except.error e =>
    ⟨Except.error (DathostError.dispatch e), t ++ [duplicateRequest h timeout], h⟩
  | Except.ok data =>
    match data.getKey "id" with
    | some i =>
      ⟨Except.ok (⟨data⟩, ⟨h.context, i⟩), t ++ [duplicateRequest h timeout], h⟩
    | none =>
      ⟨Except.error (DathostError.keyError "id"), t ++ [duplicateRequest h timeout], h⟩

/-- `ServerAwaiting.duplicate`: when `sync` is set, `self.sync()` runs first
(its error propagating unchanged, skipping the duplicate POST); then the
duplicate POST. -/
def ServerAwaiting.duplicate (h : ServerAwaiting) (sync : Bool)
    (timeout : Nat) : OpOut (ServerModel × ServerAwaiting) :=
  if sync then
    match h.sync with
    | ⟨Except.error e, t, _⟩ => ⟨Except.error e, t, h⟩
    | ⟨Except.ok _, t, _⟩ => duplicateTail h timeout t
  else duplicateTail h timeout []

/-- `ServerAwaiting.ftp_reset`: one POST to the ftp URL. -/
def ServerAwaiting.ftp_reset (h : ServerAwaiting) : OpOut Unit :=
  match h.context.respond (ftpRequest h) with
  | Except.error e => ⟨Except.error (DathostError.dispatch e), [ftpRequest h], h⟩
  | Except.ok _ => ⟨Except.ok (), [ftpRequest h], h⟩

/-- `ServerAwaiting.stop`: one POST to the stop URL. -/
def ServerAwaiting.stop (h : ServerAwaiting) (timeout : Nat) : OpOut Unit :=
  match h.context.respond (stopRequest h timeout) with
  | Except.error e => ⟨Except.error (DathostError.dispatch e), [stopRequest h timeout], h⟩
  | Except.ok _ => ⟨Except.ok (), [stopRequest h timeout], h⟩

/-- `ServerAwaiting.start`: one POST to the start URL. -/
def ServerAwaiting.start (h : ServerAwaiting) (timeout : Nat) : OpOut Unit :=
  match h.context.respond (startRequest h timeout) with
  | Except.error e => ⟨Except.error (DathostError.dispatch e), [startRequest h timeout], h⟩
  | Except.ok _ => ⟨Except.ok (), [startRequest h timeout], h⟩

/-- `ServerAwaiting.reset`: one POST to the reset URL. -/
def ServerAwaiting.reset (h : ServerAwaiting) (timeout : Nat) : OpOut Unit :=
  match h.context.respond (resetRequest h timeout) with
  | Except.error e => ⟨Except.error (DathostError.dispatch e), [resetRequest h timeout], h⟩
  | Except.ok _ => ⟨Except.ok (), [resetRequest h timeout], h⟩

/-- `ServerAwaiting.file`: pure factory, no I/O — builds the child file
handle `AwaitingFile(self.context, self.server_id, pathway)`. -/
def ServerAwaiting.file (h : ServerAwaiting) (pathway : Json) : AwaitingFile :=
  ⟨h.context, h.server_id, pathway⟩

/-- `ServerAwaiting.backup`: pure factory, no I/O — builds the child backup
handle `AwaitingBackup(self.context, self.server_id, backup_name)`. -/
def ServerAwaiting.backup (h : ServerAwaiting) (backup_name : Json) :
    AwaitingBackup :=
  ⟨h.context, h.server_id, backup_name⟩

/-- The loop body of `ServerAwaiting.files`: for each array element yield
`(FileModel(file_), self.file(file_["path"]))`; indexing a pathless element
raises. -/
def filesPairs (h : ServerAwaiting) :
    List Json → Except DathostError (List (FileModel × AwaitingFile))
  | [] => Except.ok []
  | x :: rest =>
    match x.getKey "path" with
    | none => Except.error (DathostError.keyError "path")
    | some p =>
      match filesPairs h rest with
      | Except.error e => Except.error e
      | Except.ok tail => Except.ok ((⟨x⟩, h.file p) :: tail)

/-- The loop body of `ServerAwaiting.backups`: for each array element yield
`(BackupModel(backup), self.backup(backup["name"]))`. -/
def backupsPairs (h : ServerAwaiting) :
    List Json → Except DathostError (List (BackupModel × AwaitingBackup))
  | [] => Except.ok []
  | x :: rest =>
    match x.getKey "name" with
    | none => Except.error (DathostError.keyError "name")
    | some n =>
      match backupsPairs h rest with
      | Except.error e => Except.error e
      | Except.ok tail => Except.ok ((⟨x⟩, h.backup n) :: tail)

/-- `ServerAwaiting.files`: one GET with the three filter options as query
parameters, then the (model, child handle) pairs of the response array,
materialized in array order (the async generator yields them lazily; the
sequence it produces is this list). -/
def ServerAwaiting.files (h : ServerAwaiting) (hide_default : Bool)
    (path : Option String) (file_sizes : Bool) (timeout : Nat) :
    OpOut (List (FileModel × AwaitingFile)) :=
  match h.context.respond (filesRequest h hide_default path file_sizes timeout) with
  | Except.error e =>
    ⟨Except.error (DathostError.dispatch e),
      [filesRequest h hide_default path file_sizes timeout], h⟩
  | Except.ok (Json.arr xs) =>
    ⟨filesPairs h xs, [filesRequest h hide_default path file_sizes timeout], h⟩
  | Except.ok _ =>
    ⟨Except.error DathostError.typeError,
      [filesRequest h hide_default path file_sizes timeout], h⟩

/-- `ServerAwaiting.backups`: one GET, then the (model, child handle) pairs of
the response array in array order. -/
def ServerAwaiting.backups (h : ServerAwaiting) (timeout : Nat) :
    OpOut (List (BackupModel × AwaitingBackup)) :=
  match h.context.respond (backupsRequest h timeout) with
  | Except.error e =>
    ⟨Except.error (DathostError.dispatch e), [backupsRequest h timeout], h⟩
  | Except.ok (Json.arr xs) =>
    ⟨backupsPairs h xs, [backupsRequest h timeout], h⟩
  | Except.ok _ =>
    ⟨Except.error DathostError.typeError, [backupsRequest h timeout], h⟩

/-- `ServerAwaiting.metrics`: one GET, response wrapped in a MetricsModel. -/
def ServerAwaiting.metrics (h : ServerAwaiting) : OpOut MetricsModel :=
  match h.context.respond (metricsRequest h) with
  | Except.error e => ⟨Except.error (DathostError.dispatch e), [metricsRequest h], h⟩
  | Except.ok data => ⟨Except.ok ⟨data⟩, [metricsRequest h], h⟩

/- The operation surface of the handle, for signature-level properties. -/

/-- The operations of the server handle. -/
inductive ServerOp where
  | delete | get | update | console_send | console_retrive | sync
  | duplicate | ftp_reset | stop | start | reset | files | file
  | backups | backup | metrics

/-- Whether the operation issues network calls through the dispatcher (true
for every method except the two pure child-handle factories). -/
def ServerOp.networkIssuing : ServerOp → Bool
  | ServerOp.file => false
  | ServerOp.backup => false
  | _ => true

/-- The operation's timeout parameter, from the source signatures: `some d`
when the method takes a `timeout` parameter with default `d`, `none` when its
signature has no timeout parameter. -/
def ServerOp.timeoutDefault : ServerOp → Option Nat
  | ServerOp.delete => some 60
  | ServerOp.get => none
  | ServerOp.update => none
  | ServerOp.console_send => none
  | ServerOp.console_retrive => none
  | ServerOp.sync => none
  | ServerOp.duplicate => some 60
  | ServerOp.ftp_reset => none
  | ServerOp.stop => some 60
  | ServerOp.start => some 60
  | ServerOp.reset => some 60
  | ServerOp.files => some 30
  | ServerOp.file => none
  | ServerOp.backups => some 30
  | ServerOp.backup => none
  | ServerOp.metrics => none

/- Concrete fixtures used by witnesses. -/

/-- A dispatcher oracle answering every request with the same JSON body. -/
def constContext (j : Json) : Context :=
  ⟨fun _ => Except.ok j⟩

/-- A handle whose dispatcher answers with a console-read response object. -/
def demoConsole : ServerAwaiting :=
  ⟨constContext (Json.obj [("lines", Json.arr [])]), Json.str "s1"⟩

/-- A handle whose dispatcher answers with a duplicate response object. -/
def demoDup : ServerAwaiting :=
  ⟨constContext (Json.obj [("id", Json.str "new-id")]), Json.str "orig-id"⟩

/-- A handle whose dispatcher answers with a one-element listing array whose
element carries both natural keys. -/
def demoListing : ServerAwaiting :=
  ⟨constContext (Json.arr
      [Json.obj [("path", Json.str "a.cfg"), ("name", Json.str "b1")]]),
    Json.str "s2"⟩

/-- A settings value with one set option. -/
def demoSettings : ServerSettings :=
  ⟨[("name", Json.str "renamed")]⟩

/-- The pair yielded by `files` for one array element: the model over the raw
element and the child file handle addressed by the element's "path" value. -/
def filePair (h : ServerAwaiting) (x : Json) : FileModel × AwaitingFile :=
  (⟨x⟩, h.file ((x.getKey "path").getD Json.null))

/-- The pair yielded by `backups` for one array element: the model over the
raw element and the child backup handle addressed by its "name" value. -/
def backupPair (h : ServerAwaiting) (y : Json) : BackupModel × AwaitingBackup :=
  (⟨y⟩, h.backup ((y.getKey "name").getD Json.null))

/- Helper lemmas. -/

theorem lookupKV_dictSet_same (d : List (String × Json)) (k : String)
    (v : Json) : lookupKV (dictSet d k v) k = some v := by
  induction d with
  | nil => simp [dictSet, lookupKV]
  | cons kv rest ih =>
    obtain ⟨k1, v1⟩ := kv
    by_cases hk : k1 = k
    · simp [dictSet, hk, lookupKV]
    · simp [dictSet, hk, lookupKV, ih]

theorem lookupKV_dictSet_other (d : List (String × Json)) (k k' : String)
    (v : Json) (hne : k' ≠ k) :
    lookupKV (dictSet d k v) k' = lookupKV d k' := by
  induction d with
  | nil => simp [dictSet, lookupKV, Ne.symm hne]
  | cons kv rest ih =>
    obtain ⟨k1, v1⟩ := kv
    by_cases hk : k1 = k
    · have hkk : ¬ k = k' := Ne.symm hne
      simp [dictSet, hk, lookupKV, hkk]
    · by_cases hk' : k1 = k'
      · subst hk'
        simp [dictSet, hk, lookupKV, hne]
      · simp [dictSet, hk, lookupKV, hk', ih]

theorem filesPairs_ok (h : ServerAwaiting) (xs : List Json)
    (hk : ∀ x ∈ xs, (Json.getKey x "path").isSome) :
    filesPairs h xs = Except.ok (xs.map (filePair h)) := by
  induction xs with
  | nil => rfl
  | cons x rest ih =>
    obtain ⟨p, hp⟩ := Option.isSome_iff_exists.mp
      (hk x (List.mem_cons_self x rest))
    have hrest := ih (fun y hy => hk y (List.mem_cons_of_mem x hy))
    simp [filesPairs, hp, hrest, filePair]

theorem backupsPairs_ok (h : ServerAwaiting) (ys : List Json)
    (hk : ∀ y ∈ ys, (Json.getKey y "name").isSome) :
    backupsPairs h ys = Except.ok (ys.map (backupPair h)) := by
  induction ys with
  | nil => rfl
  | cons y rest ih =>
    obtain ⟨n, hn⟩ := Option.isSome_iff_exists.mp
      (hk y (List.mem_cons_self y rest))
    have hrest := ih (fun z hz => hk z (List.mem_cons_of_mem y hz))
    simp [backupsPairs, hn, hrest, backupPair]

/- The claims. -/

/-- C1: for every `lines` with `lines < 1` or `lines > 100000`,
`console_retrive` fails with the local validation error `InvalidConsoleLine`
and issues zero dispatcher requests. -/
theorem console_retrive_out_of_range (h : ServerAwaiting) (lines : Int)
    (hb : lines < 1 ∨ lines > 100000) :
    (h.console_retrive lines).res =
      Except.error DathostError.invalidConsoleLine ∧
    (h.console_retrive lines).trace = [] := by
  unfold ServerAwaiting.console_retrive
  rw [if_pos hb]
  exact ⟨rfl, rfl⟩

/-- Witness for C1 at `lines = 0`. -/
theorem console_retrive_out_of_range_w :
    (demoConsole.console_retrive 0).res =
      Except.error DathostError.invalidConsoleLine ∧
    (demoConsole.console_retrive 0).trace = [] :=
  console_retrive_out_of_range demoConsole 0 (Or.inl (by decide))

/-- C5: for every `lines` with `1 <= lines <= 100000`, `console_retrive`
issues exactly one request, a GET carrying `lines` as the value of the
"max_lines" query parameter. -/
theorem console_retrive_in_range_one_get (h : ServerAwaiting) (lines : Int)
    (h1 : 1 ≤ lines) (h2 : lines ≤ 100000) :
    (h.console_retrive lines).trace = [consoleGetRequest h lines] ∧
    (consoleGetRequest h lines).verb = Verb.get ∧
    lookupKV (consoleGetRequest h lines).params "max_lines" =
      some (Json.int lines) := by
  refine ⟨?_, rfl, by simp [consoleGetRequest, lookupKV]⟩
  unfold ServerAwaiting.console_retrive
  rw [if_neg (not_or.mpr ⟨not_lt.mpr h1, not_lt.mpr h2⟩)]
  split
  · rfl
  · split <;> rfl

/-- Witness for C5 at `lines = 5`. -/
theorem console_retrive_in_range_one_get_w :
    (demoConsole.console_retrive 5).trace = [consoleGetRequest demoConsole 5] ∧
    (consoleGetRequest demoConsole 5).verb = Verb.get ∧
    lookupKV (consoleGetRequest demoConsole 5).params "max_lines" =
      some (Json.int 5) :=
  console_retrive_in_range_one_get demoConsole 5 (by decide) (by decide)

/-- C9: for every in-range `lines` and every JSON object the dispatcher
returns, `console_retrive` returns exactly the object's "lines" value, and
fails with a key error when the object has no "lines" key. -/
theorem console_retrive_returns_lines (h : ServerAwaiting) (lines : Int)
    (h1 : 1 ≤ lines) (h2 : lines ≤ 100000) (kvs : List (String × Json))
    (hr : h.context.respond (consoleGetRequest h lines) =
      Except.ok (Json.obj kvs)) :
    (∀ v, lookupKV kvs "lines" = some v →
      (h.console_retrive lines).res = Except.ok v) ∧
    (lookupKV kvs "lines" = none →
      (h.console_retrive lines).res =
        Except.error (DathostError.keyError "lines")) := by
  unfold ServerAwaiting.console_retrive
  rw [if_neg (not_or.mpr ⟨not_lt.mpr h1, not_lt.mpr h2⟩), hr]
  constructor
  · intro v hv
    simp [Json.getKey, hv]
  · intro hv
    simp [Json.getKey, hv]

/-- Witness for C9 at `lines = 5` against a dispatcher answering with an
object carrying a "lines" key. -/
theorem console_retrive_returns_lines_w :
    (demoConsole.console_retrive 5).res = Except.ok (Json.arr []) :=
  (console_retrive_returns_lines demoConsole 5 (by decide) (by decide)
    [("lines", Json.arr [])] rfl).1 (Json.arr []) rfl

theorem duplicateTail_ok (h : ServerAwaiting) (timeout : Nat)
    (t : List Request) (m : ServerModel) (h2 : ServerAwaiting)
    (hok : (duplicateTail h timeout t).res = Except.ok (m, h2)) :
    ∃ data, h.context.respond (duplicateRequest h timeout) = Except.ok data ∧
      m = ServerModel.mk data ∧ h2.context = h.context ∧
      Json.getKey data "id" = some h2.server_id := by
  unfold duplicateTail at hok
  split at hok
  · exact absurd hok (by simp)
  · rename_i data heq
    split at hok
    · rename_i i hid
      simp only [Except.ok.injEq, Prod.mk.injEq] at hok
      obtain ⟨hm, hh⟩ := hok
      subst hm
      subst hh
      exact ⟨data, heq, rfl, rfl, hid⟩
    · exact absurd hok (by simp)

/-- C2: `duplicate(sync=True)` issues the sync POST strictly before the
duplicate POST (and, when the sync call fails, the duplicate POST is never
reached); `duplicate(sync=False)` issues no sync call, only the duplicate
POST. -/
theorem duplicate_sync_ordering (h : ServerAwaiting) (timeout : Nat) :
    (h.duplicate false timeout).trace = [duplicateRequest h timeout] ∧
    (syncRequest h).verb = Verb.post ∧
    (duplicateRequest h timeout).verb = Verb.post ∧
    (∀ e, h.context.respond (syncRequest h) = Except.error e →
      (h.duplicate true timeout).trace = [syncRequest h]) ∧
    (∀ j, h.context.respond (syncRequest h) = Except.ok j →
      (h.duplicate true timeout).trace =
        [syncRequest h, duplicateRequest h timeout]) := by
  refine ⟨?_, rfl, rfl, ?_, ?_⟩
  · show (duplicateTail h timeout []).trace = _
    unfold duplicateTail
    split
    · rfl
    · split <;> rfl
  · intro e he
    unfold ServerAwaiting.duplicate ServerAwaiting.sync
    rw [he]
    rfl
  · intro j hj
    unfold ServerAwaiting.duplicate ServerAwaiting.sync
    rw [hj]
    show (duplicateTail h timeout [syncRequest h]).trace = _
    unfold duplicateTail
    split
    · rfl
    · split <;> rfl

/-- Witness for C2: with a dispatcher that answers every request, the
`sync=True` trace is the sync POST followed by the duplicate POST. -/
theorem duplicate_sync_ordering_w :
    (demoConsole.duplicate true 60).trace =
      [syncRequest demoConsole, duplicateRequest demoConsole 60] :=
  (duplicate_sync_ordering demoConsole 60).2.2.2.2
    (Json.obj [("lines", Json.arr [])]) rfl

/-- C6: `update(settings)` issues exactly one PUT whose body is the settings
payload with the "server_id" entry merged in, every other key mapped exactly
as in the payload. -/
theorem update_one_put_merged_body (h : ServerAwaiting)
    (settings : ServerSettings) :
    (h.update settings).trace = [updateRequest h settings] ∧
    (updateRequest h settings).verb = Verb.put ∧
    lookupKV (updateRequest h settings).body "server_id" = some h.server_id ∧
    (∀ k, k ≠ "server_id" →
      lookupKV (updateRequest h settings).body k =
        lookupKV settings.playload k) := by
  refine ⟨?_, rfl, ?_, ?_⟩
  · unfold ServerAwaiting.update
    split <;> rfl
  · exact lookupKV_dictSet_same settings.playload "server_id" h.server_id
  · intro k hk
    exact lookupKV_dictSet_other settings.playload "server_id" k
      h.server_id hk

/-- Witness for C6 at a one-option settings value. -/
theorem update_one_put_merged_body_w :
    (demoConsole.update demoSettings).trace =
      [updateRequest demoConsole demoSettings] ∧
    lookupKV (updateRequest demoConsole demoSettings).body "server_id" =
      some demoConsole.server_id ∧
    lookupKV (updateRequest demoConsole demoSettings).body "name" =
      lookupKV demoSettings.playload "name" :=
  ⟨(update_one_put_merged_body demoConsole demoSettings).1,
    (update_one_put_merged_body demoConsole demoSettings).2.2.1,
    (update_one_put_merged_body demoConsole demoSettings).2.2.2 "name"
      (by decide)⟩

/-- C10: every successful `duplicate` call returns the model wrapping the
duplicate POST's JSON response together with a fresh handle whose server id is
the response object's "id" value and whose dispatcher context is the calling
handle's. -/
theorem duplicate_success_result (h : ServerAwaiting) (sync : Bool)
    (timeout : Nat) (m : ServerModel) (h2 : ServerAwaiting)
    (hok : (h.duplicate sync timeout).res = Except.ok (m, h2)) :
    ∃ data, h.context.respond (duplicateRequest h timeout) = Except.ok data ∧
      m = ServerModel.mk data ∧ h2.context = h.context ∧
      Json.getKey data "id" = some h2.server_id := by
  cases sync with
  | false => exact duplicateTail_ok h timeout [] m h2 hok
  | true =>
    unfold ServerAwaiting.duplicate at hok
    rw [if_pos rfl] at hok
    split at hok
    · exact absurd hok (by simp)
    · rename_i t o heq
      exact duplicateTail_ok h timeout t m h2 hok

/-- Witness for C10 against a dispatcher answering with an object whose "id"
is "new-id". -/
theorem duplicate_success_result_w :
    ∃ data,
      demoDup.context.respond (duplicateRequest demoDup 60) =
        Except.ok data ∧
      ServerModel.mk (Json.obj [("id", Json.str "new-id")]) =
        ServerModel.mk data ∧
      (ServerAwaiting.mk demoDup.context (Json.str "new-id")).context =
        demoDup.context ∧
      Json.getKey data "id" =
        some (ServerAwaiting.mk demoDup.context
          (Json.str "new-id")).server_id :=
  duplicate_success_result demoDup false 60
    ⟨Json.obj [("id", Json.str "new-id")]⟩
    ⟨demoDup.context, Json.str "new-id"⟩ rfl

/-- C3: for every JSON array of N elements returned by the listing GET, the
files and backups listings produce exactly the N (model, child handle) pairs
in array order — each handle addressed by the element's natural key ("path"
for files, "name" for backups) — and an array of 0 elements produces the
empty sequence (the N = 0 instance). -/
theorem listing_yields_pairs (h : ServerAwaiting) (hd : Bool)
    (p : Option String) (fs : Bool) (t t' : Nat) (xs ys : List Json)
    (hrf : h.context.respond (filesRequest h hd p fs t) =
      Except.ok (Json.arr xs))
    (hkf : ∀ x ∈ xs, (Json.getKey x "path").isSome)
    (hrb : h.context.respond (backupsRequest h t') = Except.ok (Json.arr ys))
    (hkb : ∀ y ∈ ys, (Json.getKey y "name").isSome) :
    ((h.files hd p fs t).res = Except.ok (xs.map (filePair h)) ∧
      (xs.map (filePair h)).length = xs.length) ∧
    ((h.backups t').res = Except.ok (ys.map (backupPair h)) ∧
      (ys.map (backupPair h)).length = ys.length) := by
  refine ⟨⟨?_, by simp⟩, ⟨?_, by simp⟩⟩
  · unfold ServerAwaiting.files
    rw [hrf]
    exact filesPairs_ok h xs hkf
  · unfold ServerAwaiting.backups
    rw [hrb]
    exact backupsPairs_ok h ys hkb

/-- Witness for C3 against a dispatcher answering both listing GETs with a
one-element array whose element carries both natural keys. -/
theorem listing_yields_pairs_w :
    ((demoListing.files true (some "/") false 30).res =
        Except.ok ([Json.obj [("path", Json.str "a.cfg"),
          ("name", Json.str "b1")]].map (filePair demoListing)) ∧
      ([Json.obj [("path", Json.str "a.cfg"),
          ("name", Json.str "b1")]].map (filePair demoListing)).length = 1) ∧
    ((demoListing.backups 30).res =
        Except.ok ([Json.obj [("path", Json.str "a.cfg"),
          ("name", Json.str "b1")]].map (backupPair demoListing)) ∧
      ([Json.obj [("path", Json.str "a.cfg"),
          ("name", Json.str "b1")]].map (backupPair demoListing)).length = 1) :=
  listing_yields_pairs demoListing true (some "/") false 30 30
    [Json.obj [("path", Json.str "a.cfg"), ("name", Json.str "b1")]]
    [Json.obj [("path", Json.str "a.cfg"), ("name", Json.str "b1")]]
    rfl (by decide) rfl (by decide)

/-- C7: `files` forwards hide_default, path and file_sizes verbatim as the
query parameters "hide_default_files", "path" and "with_filesizes" of its
single GET, and applies no client-side filtering: every element of the
returned array yields a pair. -/
theorem files_forwards_params (h : ServerAwaiting) (hd : Bool)
    (p : Option String) (fs : Bool) (t : Nat) :
    (h.files hd p fs t).trace = [filesRequest h hd p fs t] ∧
    (filesRequest h hd p fs t).verb = Verb.get ∧
    (filesRequest h hd p fs t).params =
      [("hide_default_files", Json.bool hd),
       ("path", match p with | some s => Json.str s | none => Json.null),
       ("with_filesizes", Json.bool fs)] ∧
    (∀ xs, h.context.respond (filesRequest h hd p fs t) =
        Except.ok (Json.arr xs) →
      (∀ x ∈ xs, (Json.getKey x "path").isSome) →
      ∃ l, (h.files hd p fs t).res = Except.ok l ∧ l.length = xs.length) := by
  refine ⟨?_, rfl, rfl, ?_⟩
  · unfold ServerAwaiting.files
    split <;> rfl
  · intro xs hr hk
    refine ⟨xs.map (filePair h), ?_, by simp⟩
    unfold ServerAwaiting.files
    rw [hr]
    exact filesPairs_ok h xs hk

/-- Witness for C7's universally quantified part at the concrete listing
dispatcher. -/
theorem files_forwards_params_w :
    ∃ l, (demoListing.files false none true 30).res = Except.ok l ∧
      l.length = 1 :=
  (files_forwards_params demoListing false none true 30).2.2.2
    [Json.obj [("path", Json.str "a.cfg"), ("name", Json.str "b1")]]
    rfl (by decide)

/-- C8: no operation of the server handle changes the handle's identifying
key: after any of the sixteen operations, at any input, the handle's
server_id is what it was before the call (the two pure factories build child
handles carrying that same server_id). -/
theorem server_id_immutable (h : ServerAwaiting) :
    (∀ t, (h.delete t).post.server_id = h.server_id) ∧
    ((h.get).post.server_id = h.server_id) ∧
    (∀ s, (h.update s).post.server_id = h.server_id) ∧
    (∀ l, (h.console_send l).post.server_id = h.server_id) ∧
    (∀ n, (h.console_retrive n).post.server_id = h.server_id) ∧
    ((h.sync).post.server_id = h.server_id) ∧
    (∀ s t, (h.duplicate s t).post.server_id = h.server_id) ∧
    ((h.ftp_reset).post.server_id = h.server_id) ∧
    (∀ t, (h.stop t).post.server_id = h.server_id) ∧
    (∀ t, (h.start t).post.server_id = h.server_id) ∧
    (∀ t, (h.reset t).post.server_id = h.server_id) ∧
    (∀ hd p fs t, (h.files hd p fs t).post.server_id = h.server_id) ∧
    (∀ p, (h.file p).server_id = h.server_id) ∧
    (∀ t, (h.backups t).post.server_id = h.server_id) ∧
    (∀ n, (h.backup n).server_id = h.server_id) ∧
    ((h.metrics).post.server_id = h.server_id) := by
  refine ⟨?_, ?_, ?_, ?_, ?_, ?_, ?_, ?_, ?_, ?_, ?_, ?_, ?_, ?_, ?_, ?_⟩
  · intro t
    unfold ServerAwaiting.delete
    split <;> rfl
  · unfold ServerAwaiting.get
    split <;> rfl
  · intro s
    unfold ServerAwaiting.update
    split <;> rfl
  · intro l
    unfold ServerAwaiting.console_send
    split <;> rfl
  · intro n
    unfold ServerAwaiting.console_retrive
    split
    · rfl
    · split
      · rfl
      · split <;> rfl
  · unfold ServerAwaiting.sync
    split <;> rfl
  · intro s t
    cases s with
    | false =>
      show (duplicateTail h t []).post.server_id = _
      unfold duplicateTail
      split
      · rfl
      · split <;> rfl
    | true =>
      unfold ServerAwaiting.duplicate
      rw [if_pos rfl]
      split
      · rfl
      · unfold duplicateTail
        split
        · rfl
        · split <;> rfl
  · unfold ServerAwaiting.ftp_reset
    split <;> rfl
  · intro t
    unfold ServerAwaiting.stop
    split <;> rfl
  · intro t
    unfold ServerAwaiting.start
    split <;> rfl
  · intro t
    unfold ServerAwaiting.reset
    split <;> rfl
  · intro hd p fs t
    unfold ServerAwaiting.files
    split <;> rfl
  · intro p
    rfl
  · intro t
    unfold ServerAwaiting.backups
    split <;> rfl
  · intro n
    rfl
  · unfold ServerAwaiting.metrics
    split <;> rfl

/-- C4 counterexample: `get`, `sync` and `metrics` issue network calls, yet
their signatures carry no timeout parameter at all — refuting "every
network-issuing operation accepts a timeout value as a parameter". -/
theorem timeout_param_missing :
    ServerOp.networkIssuing ServerOp.get = true ∧
    ServerOp.timeoutDefault ServerOp.get = none ∧
    ServerOp.networkIssuing ServerOp.sync = true ∧
    ServerOp.timeoutDefault ServerOp.sync = none ∧
    ServerOp.networkIssuing ServerOp.metrics = true ∧
    ServerOp.timeoutDefault ServerOp.metrics = none :=
  ⟨rfl, rfl, rfl, rfl, rfl, rfl⟩

/-- C4 amended: the operations that do take a timeout parameter (delete,
duplicate, stop, start, reset, files, backups) all default it inside the
30–60 range; the remaining network-issuing operations (get, update,
console_send, console_retrive, sync, ftp_reset, metrics) take no timeout
parameter. -/
theorem timeout_params_amended :
    (∀ op : ServerOp, ∀ d : Nat, ServerOp.timeoutDefault op = some d →
      30 ≤ d ∧ d ≤ 60) ∧
    (∀ op : ServerOp, (ServerOp.timeoutDefault op).isSome = true ↔
      (op = ServerOp.delete ∨ op = ServerOp.duplicate ∨ op = ServerOp.stop ∨
       op = ServerOp.start ∨ op = ServerOp.reset ∨ op = ServerOp.files ∨
       op = ServerOp.backups)) ∧
    (∀ op : ServerOp, ServerOp.networkIssuing op = false ↔
      (op = ServerOp.file ∨ op = ServerOp.backup)) := by
  refine ⟨?_, ?_, ?_⟩
  · intro op d hd
    cases op <;> simp [ServerOp.timeoutDefault] at hd <;> omega
  · intro op
    cases op <;> simp [ServerOp.timeoutDefault]
  · intro op
    cases op <;> simp [ServerOp.networkIssuing]

/-- Witness for C4's amended claim at the delete operation. -/
theorem timeout_params_amended_w : 30 ≤ 60 ∧ 60 ≤ 60 :=
  timeout_params_amended.1 ServerOp.delete 60 rfl
